import Mathlib

/-!
Verification of the etcd-druid controllers (src/controllers/etcd_controller.go and
src/controllers/etcd_custodian_controller.go) via a shallow embedding in Lean 4.

The Go data structures are embedded as Lean structures; Kubernetes API side effects are
modelled by explicit state (lists of objects) or by boolean environments recording whether
an individual API call succeeds; fallible Go functions return the GoResult type below,
whose third constructor models a Go runtime panic as distinct from a returned error.
-/

namespace EtcdDruid

/-- Association-list lookup, modelling Go map indexing with its ok flag. -/
def lookupStr (m : List (String × String)) (k : String) : Option String :=
  (m.find? (fun p => p.1 == k)).map Prod.snd

/-- Result of a fallible Go function: a value, a returned error, or a runtime panic. -/
inductive GoResult (α : Type) where
  | ok (val : α)
  | err (msg : String)
  | panics (msg : String)
  deriving Repr, DecidableEq

/-- True when the result is a returned error. -/
def GoResult.isErr {α : Type} : GoResult α → Bool
  | .err _ => true
  | _ => false

/-- The value of a successful result, if any. -/
def GoResult.toOptionVal {α : Type} : GoResult α → Option α
  | .ok v => some v
  | _ => none

/-! ## Constants (etcd_controller.go lines 74-85 and the external constant packages) -/

/-- FinalizerName (line 76). -/
def finalizerName : String := "druid.gardener.cloud/etcd-druid"

/-- DefaultAutoCompactionRetention (line 84). -/
def defaultAutoCompactionRetention : String := "30m"

/-- etcdGVK.Kind: the kind of the parent custom resource. -/
def etcdGVKKind : String := "Etcd"

/-- common.Etcd, the image-catalog key for the etcd image. -/
def commonEtcd : String := "etcd"

/-- common.BackupRestore, the image-catalog key for the backup-restore image. -/
def commonBackupRestore : String := "etcd-backup-restore"

/-- Modelled from the spec: common.GardenerOwnedBy, the owned-by marker key from pkg/common
(not under src); its value is given in spec section 3. -/
def gardenerOwnedBy : String := "gardener.cloud/owned-by"

/-- Modelled from the spec: common.GardenerOwnerType, the owner-type marker key from
pkg/common (not under src); its value is given in spec section 3. -/
def gardenerOwnerType : String := "gardener.cloud/owner-type"

/-- Modelled from the spec: v1beta1constants.GardenerOperation, the well-known manual-trigger
key (not under src); its value is given in spec section 4.5. -/
def gardenerOperation : String := "gardener.cloud/operation"

/-- druidv1alpha1.Periodic, the periodic auto-compaction mode tag. -/
def periodicMode : String := "periodic"

/-! ## Data model -/

/-- A Kubernetes owner reference, reduced to the only field the controllers inspect. -/
structure OwnerRef where
  uid : String
  deriving Repr, DecidableEq

/-- Object metadata, reduced to the fields the controllers inspect. The Go annotations map
may be nil, hence the Option. -/
structure ObjMeta where
  name : String
  ns : String
  uid : String
  labels : List (String × String)
  annots : Option (List (String × String))
  ownerRefs : List OwnerRef
  deriving Repr, DecidableEq

/-- Status subresource of a StatefulSet, reduced to the fields the controllers read. -/
structure StsStatus where
  observedGeneration : Int
  currentReplicas : Int
  readyReplicas : Int
  updatedReplicas : Int
  deriving Repr, DecidableEq

/-- A StatefulSet (the workload child), reduced to the fields the controllers read. -/
structure StatefulSet where
  meta : ObjMeta
  generation : Int
  replicas : Int
  status : StsStatus
  deriving Repr, DecidableEq

/-- The three TLS secret references of Spec.Etcd.TLS. -/
structure TlsRefs where
  serverTLSSecretName : String
  clientTLSSecretName : String
  tlsCASecretName : String
  deriving Repr, DecidableEq

/-- Spec.Etcd: quota carries the byte value of the resource quantity. Pass-through fields
not inspected by any verified claim (resources, metrics, ports) are omitted. -/
structure EtcdConfigSpec where
  image : Option String
  quota : Option Int
  defragmentationSchedule : Option String
  tls : Option TlsRefs
  deriving Repr, DecidableEq

/-- Spec.Backup.Store: the object-store binding. -/
structure StoreSpec where
  provider : Option String
  prefixStr : String
  container : Option String
  secretRefName : Option String
  deriving Repr, DecidableEq

/-- Spec.Backup: the memory limit carries the byte value of the resource quantity.
Pass-through fields not inspected by any verified claim are omitted. -/
structure BackupSpec where
  image : Option String
  port : Option Int
  deltaSnapshotMemoryLimit : Option Int
  store : Option StoreSpec
  deriving Repr, DecidableEq

/-- Spec.Common (sharedConfig). -/
structure SharedConfigSpec where
  autoCompactionMode : Option String
  autoCompactionRetention : Option String
  deriving Repr, DecidableEq

/-- Status subresource of the parent Etcd resource. -/
structure EtcdStatus where
  lastError : Option String
  observedGeneration : Option Int
  ready : Option Bool
  readyReplicas : Int
  currentReplicas : Int
  updatedReplicas : Int
  serviceName : Option String
  deriving Repr, DecidableEq

/-- Spec of the parent Etcd resource; the selector is reduced to its matchLabels pairs. -/
structure EtcdSpec where
  selector : List (String × String)
  labels : List (String × String)
  annots : List (String × String)
  replicas : Int
  etcd : EtcdConfigSpec
  backup : BackupSpec
  common : SharedConfigSpec
  volumeClaimTemplate : Option String
  deriving Repr, DecidableEq

/-- The parent Etcd custom resource. -/
structure Etcd where
  meta : ObjMeta
  generation : Int
  spec : EtcdSpec
  status : EtcdStatus
  deriving Repr, DecidableEq

/-! ## Ownership checks and the DELETE path (claim C1) -/

/-- checkEtcdOwnerReference (lines 797-804): true iff some owner reference carries the
parent UID. -/
def checkEtcdOwnerReference (refs : List OwnerRef) (etcdUid : String) : Bool :=
  refs.any (fun r => r.uid == etcdUid)

/-- checkEtcdAnnotations (lines 806-823): true iff the owned-by marker equals
ns/name and the owner-type marker equals the lower-cased parent kind; false when
the map is nil or either key is absent. -/
def checkEtcdAnnotations (annots : Option (List (String × String))) (etcdNs etcdName : String) : Bool :=
  match annots with
  | none => false
  | some m =>
    match lookupStr m gardenerOwnedBy with
    | none => false
    | some ownedBy =>
      match lookupStr m gardenerOwnerType with
      | none => false
      | some ownerType =>
        ownedBy == etcdNs ++ "/" ++ etcdName && ownerType == etcdGVKKind.toLower

/-- Label-selector matching, reduced to matchLabels: every selector pair must be present
in the object labels. -/
def matchesSelector (sel : List (String × String)) (lbls : List (String × String)) : Bool :=
  sel.all (fun p => lookupStr lbls p.1 == some p.2)

/-- canDeleteStatefulset (lines 1111-1119). -/
def canDeleteStatefulset (sts : StatefulSet) (etcd : Etcd) : Bool :=
  checkEtcdOwnerReference sts.meta.ownerRefs etcd.meta.uid ||
  checkEtcdAnnotations sts.meta.annots etcd.meta.ns etcd.meta.name

/-- removeDependantStatefulset (lines 1090-1109) over a model cluster: the List call keeps
the StatefulSets in the parent namespace matching the parent selector, and the loop deletes
exactly those passing canDeleteStatefulset. The returned list is the set of deleted
StatefulSets, assuming each Delete call succeeds (a Delete error aborts the loop early but
deletes no object outside this list). -/
def removeDependantStatefulset (etcd : Etcd) (cluster : List StatefulSet) : List StatefulSet :=
  ((cluster.filter (fun s => s.meta.ns == etcd.meta.ns &&
      matchesSelector etcd.spec.selector s.meta.labels)).filter
    (fun s => canDeleteStatefulset s etcd))

/-- Claim C1: on the DELETE path, a StatefulSet in the parent namespace matching the parent
selector is deleted only if it carries an owner reference with the parent UID or it carries
the owned-by/owner-type marker pair naming the parent; one satisfying neither is never
deleted. -/
theorem removeDependantStatefulset_ownership_safety
    (etcd : Etcd) (cluster : List StatefulSet) (sts : StatefulSet)
    (hdel : sts ∈ removeDependantStatefulset etcd cluster) :
    checkEtcdOwnerReference sts.meta.ownerRefs etcd.meta.uid = true ∨
    checkEtcdAnnotations sts.meta.annots etcd.meta.ns etcd.meta.name = true := by
  unfold removeDependantStatefulset at hdel
  have h := (List.mem_filter.mp hdel).2
  unfold canDeleteStatefulset at h
  exact Bool.or_eq_true_iff.mp h

/-- A StatefulSet owned by the sample parent through an owner reference. -/
def c1Sts : StatefulSet :=
  { meta := { name := "foo", ns := "shoot", uid := "sts-uid",
              labels := [("instance", "foo")], annots := none,
              ownerRefs := [{ uid := "parent-uid" }] },
    generation := 1, replicas := 1,
    status := { observedGeneration := 1, currentReplicas := 1, readyReplicas := 1,
                updatedReplicas := 1 } }

/-- A sample parent owning c1Sts by UID. -/
def c1Etcd : Etcd :=
  { meta := { name := "foo", ns := "shoot", uid := "parent-uid", labels := [],
              annots := none, ownerRefs := [] },
    generation := 1,
    spec := { selector := [("instance", "foo")], labels := [], annots := [],
              replicas := 1,
              etcd := { image := some "etcd-img", quota := none,
                        defragmentationSchedule := none, tls := none },
              backup := { image := some "backup-img", port := none,
                          deltaSnapshotMemoryLimit := none, store := none },
              common := { autoCompactionMode := none, autoCompactionRetention := none },
              volumeClaimTemplate := none },
    status := { lastError := none, observedGeneration := none, ready := none,
                readyReplicas := 0, currentReplicas := 0, updatedReplicas := 0,
                serviceName := none } }

/-- Witness for claim C1: a concretely deleted StatefulSet indeed satisfies the
ownership disjunction. -/
theorem removeDependantStatefulset_ownership_safety_witness :
    checkEtcdOwnerReference c1Sts.meta.ownerRefs c1Etcd.meta.uid = true ∨
    checkEtcdAnnotations c1Sts.meta.annots c1Etcd.meta.ns c1Etcd.meta.name = true :=
  removeDependantStatefulset_ownership_safety c1Etcd [c1Sts] c1Sts (by decide)

/-! ## Child sync surplus deletion (claim C2) -/

/-- Identity of a child object, as used by the delete and refetch calls. -/
structure ChildRef where
  ns : String
  name : String
  deriving Repr, DecidableEq

/-- The surplus delete loop shared verbatim by reconcileServices (line 338),
reconcileConfigMaps (line 464) and reconcileStatefulSet (line 602):
for i := 1; i < len(claimed); i++ delete claimed[i]. A delete error is logged and the
loop continues, so every index from the start index up is attempted. -/
def deleteSurplusFrom (claimed : List ChildRef) (i : Nat) : List ChildRef :=
  if h : i < claimed.length then
    claimed.get ⟨i, h⟩ :: deleteSurplusFrom claimed (i + 1)
  else []
  termination_by claimed.length - i

/-- Outcome of one child-kind sync: which children were deleted, which single claimed
child was kept (refetched and synced), and which rendered child was created. -/
structure ChildSyncOutcome where
  deleted : List ChildRef
  kept : Option ChildRef
  created : Option ChildRef
  deriving Repr, DecidableEq

/-- The keep-exactly-one step shared by reconcileServices (lines 334-386),
reconcileConfigMaps (lines 460-512) and reconcileStatefulSet (lines 600-665): when the
claim step returned a non-empty list, the surplus children are deleted, the child at
index 0 is refetched, synced and returned; otherwise the rendered child is created. -/
def reconcileClaimedChildren (claimed : List ChildRef) (rendered : ChildRef) : ChildSyncOutcome :=
  if claimed.length > 0 then
    { deleted := deleteSurplusFrom claimed 1, kept := claimed[0]?, created := none }
  else
    { deleted := [], kept := none, created := some rendered }

/-- The surplus loop starting at index i deletes exactly the suffix from index i. -/
theorem deleteSurplusFrom_eq_drop (claimed : List ChildRef) (i : Nat) :
    deleteSurplusFrom claimed i = claimed.drop i := by
  generalize hn : claimed.length - i = n
  induction n generalizing i with
  | zero =>
    rw [deleteSurplusFrom]
    have hge : ¬ i < claimed.length := by omega
    simp only [hge, dite_false]
    exact (List.drop_eq_nil_iff.mpr (by omega)).symm
  | succ n ih =>
    rw [deleteSurplusFrom]
    have hlt : i < claimed.length := by omega
    simp only [hlt, dite_true]
    rw [ih (i + 1) (by omega)]
    exact (List.drop_eq_getElem_cons hlt).symm

/-- Claim C2: whenever the claim step returns a non-empty list of n claimed children, the
sync deletes exactly the children at indices 1..n-1, returns the child at index 0, and
exactly one claimed child survives. -/
theorem reconcileClaimedChildren_single_child
    (claimed : List ChildRef) (rendered : ChildRef) (hne : claimed ≠ []) :
    (reconcileClaimedChildren claimed rendered).deleted = claimed.drop 1 ∧
    (reconcileClaimedChildren claimed rendered).kept = claimed[0]? ∧
    claimed.length - (reconcileClaimedChildren claimed rendered).deleted.length = 1 := by
  have hpos : claimed.length > 0 := List.length_pos.mpr hne
  have h1 : reconcileClaimedChildren claimed rendered =
      { deleted := deleteSurplusFrom claimed 1, kept := claimed[0]?, created := none } := by
    unfold reconcileClaimedChildren
    rw [if_pos hpos]
  rw [h1, deleteSurplusFrom_eq_drop]
  refine ⟨rfl, rfl, ?_⟩
  rw [List.length_drop]
  omega

/-- Witness for claim C2 on a concrete claimed list of three children. -/
theorem reconcileClaimedChildren_single_child_witness :
    (reconcileClaimedChildren
        [⟨"shoot", "a"⟩, ⟨"shoot", "b"⟩, ⟨"shoot", "c"⟩] ⟨"shoot", "r"⟩).deleted =
      ([⟨"shoot", "a"⟩, ⟨"shoot", "b"⟩, ⟨"shoot", "c"⟩] : List ChildRef).drop 1 ∧
    (reconcileClaimedChildren
        [⟨"shoot", "a"⟩, ⟨"shoot", "b"⟩, ⟨"shoot", "c"⟩] ⟨"shoot", "r"⟩).kept =
      ([⟨"shoot", "a"⟩, ⟨"shoot", "b"⟩, ⟨"shoot", "c"⟩] : List ChildRef)[0]? ∧
    ([⟨"shoot", "a"⟩, ⟨"shoot", "b"⟩, ⟨"shoot", "c"⟩] : List ChildRef).length -
      (reconcileClaimedChildren
        [⟨"shoot", "a"⟩, ⟨"shoot", "b"⟩, ⟨"shoot", "c"⟩] ⟨"shoot", "r"⟩).deleted.length = 1 :=
  reconcileClaimedChildren_single_child
    [⟨"shoot", "a"⟩, ⟨"shoot", "b"⟩, ⟨"shoot", "c"⟩] ⟨"shoot", "r"⟩ (by decide)

/-! ## DELETE path step ordering (claim C3) -/

/-- The three externally visible steps of the DELETE path. -/
inductive DeleteStep where
  | removeDependantStatefulsetStep
  | removeSecretFinalizersStep
  | removeEtcdFinalizerStep
  deriving Repr, DecidableEq

/-- Outcomes of the individual API interactions the DELETE path performs. -/
structure DeleteEnv where
  stsRemovalSucceeds : Bool
  secretReleaseSucceeds : Bool
  etcdHasFinalizer : Bool
  patchSucceeds : Bool
  deriving Repr, DecidableEq

/-- Result of one DELETE pass: the successfully completed steps in execution order, and
whether the request is requeued. -/
structure DeleteResult where
  completed : List DeleteStep
  requeue : Bool
  deriving Repr, DecidableEq

/-- The DELETE path control flow of delete (lines 262-305): dependent StatefulSets are
removed first; on error the pass requeues. Then secret finalizers are released; on error
the pass requeues. Only then, and only when the parent still carries the finalizer, is the
parent finalizer patched away (a NotFound on the patch counts as success). -/
def deleteFlow (env : DeleteEnv) : DeleteResult :=
  if !env.stsRemovalSucceeds then
    { completed := [], requeue := true }
  else if !env.secretReleaseSucceeds then
    { completed := [.removeDependantStatefulsetStep], requeue := true }
  else if env.etcdHasFinalizer then
    if env.patchSucceeds then
      { completed := [.removeDependantStatefulsetStep, .removeSecretFinalizersStep,
                      .removeEtcdFinalizerStep],
        requeue := false }
    else
      { completed := [.removeDependantStatefulsetStep, .removeSecretFinalizersStep],
        requeue := true }
  else
    { completed := [.removeDependantStatefulsetStep, .removeSecretFinalizersStep],
      requeue := false }

/-- Claim C3: whenever the parent finalizer is removed on the DELETE path, the dependent
workload deletion and the secret-finalizer release both succeeded before it, and the
completed steps are exactly workload deletion, then secret release, then parent finalizer
removal, in that order with the parent finalizer last. -/
theorem deleteFlow_finalizer_removed_last (env : DeleteEnv)
    (h : DeleteStep.removeEtcdFinalizerStep ∈ (deleteFlow env).completed) :
    env.stsRemovalSucceeds = true ∧ env.secretReleaseSucceeds = true ∧
    (deleteFlow env).completed =
      [DeleteStep.removeDependantStatefulsetStep, DeleteStep.removeSecretFinalizersStep,
       DeleteStep.removeEtcdFinalizerStep] := by
  rcases env with ⟨a, b, c, d⟩
  cases a <;> cases b <;> cases c <;> cases d <;> simp_all [deleteFlow]

/-- Witness for claim C3: the fully successful DELETE pass. -/
theorem deleteFlow_finalizer_removed_last_witness :
    ({ stsRemovalSucceeds := true, secretReleaseSucceeds := true, etcdHasFinalizer := true,
       patchSucceeds := true : DeleteEnv }).stsRemovalSucceeds = true ∧
    ({ stsRemovalSucceeds := true, secretReleaseSucceeds := true, etcdHasFinalizer := true,
       patchSucceeds := true : DeleteEnv }).secretReleaseSucceeds = true ∧
    (deleteFlow { stsRemovalSucceeds := true, secretReleaseSucceeds := true,
                  etcdHasFinalizer := true, patchSucceeds := true }).completed =
      [DeleteStep.removeDependantStatefulsetStep, DeleteStep.removeSecretFinalizersStep,
       DeleteStep.removeEtcdFinalizerStep] :=
  deleteFlow_finalizer_removed_last
    { stsRemovalSucceeds := true, secretReleaseSucceeds := true,
      etcdHasFinalizer := true, patchSucceeds := true } (by decide)

/-! ## Value assembly: getMapFromEtcd (claims C7, C8, C10) -/

/-- The etcd sub-map of the values map; the constant pullPolicy entry is omitted. -/
structure EtcdValues where
  defragmentationSchedule : Option String
  enableTLS : Bool
  image : String
  deriving Repr, DecidableEq

/-- The backup sub-map of the values map; the constant pullPolicy entry is omitted. -/
structure BackupValues where
  etcdQuotaBytes : Int
  etcdConnectionTimeout : String
  snapstoreTempDir : String
  deltaSnapshotMemoryLimit : Int
  image : String
  port : Option Int
  deriving Repr, DecidableEq

/-- The sharedConfig sub-map of the values map. -/
structure SharedConfigValues where
  autoCompactionMode : String
  autoCompactionRetention : String
  deriving Repr, DecidableEq

/-- The store sub-map of the values map. -/
structure StoreValues where
  storePrefixV : String
  storageProvider : String
  storageContainer : Option String
  storeSecret : Option String
  deriving Repr, DecidableEq

/-- The values map handed to the chart renderer (lines 964-978), as a record. -/
structure ChartValues where
  name : String
  uid : String
  replicas : Int
  statefulsetReplicas : Int
  serviceName : String
  configMapName : String
  volumeClaimTemplateName : String
  etcd : EtcdValues
  backup : BackupValues
  sharedConfig : SharedConfigValues
  tlsServerSecret : Option String
  tlsClientSecret : Option String
  tlsCASecret : Option String
  store : Option StoreValues
  deriving Repr, DecidableEq

/-- Modelled from the spec: imagevector.FindImages (the image catalog resolver, not under
src) restricted to our use, as a pure restriction of the catalog to the requested keys;
the missing-key error surfaces through the ok checks at lines 874-877 and 937-940. -/
def findImages (catalog : List (String × String)) (names : List String) : List (String × String) :=
  catalog.filter (fun p => names.contains p.1)

/-- Modelled from the spec: utils.StorageProviderFromInfraProvider (not under src), the
provider-alias table normalising cloud short names to canonical storage provider tags; an
unknown tag is an error and a nil provider maps to the empty tag. -/
def storageProviderFromInfraProvider : Option String → GoResult String
  | none => GoResult.ok ""
  | some p =>
    if p == "aws" || p == "s3" then GoResult.ok "S3"
    else if p == "azure" || p == "abs" then GoResult.ok "ABS"
    else if p == "gcp" || p == "gcs" then GoResult.ok "GCS"
    else if p == "alicloud" || p == "oss" then GoResult.ok "OSS"
    else if p == "openstack" || p == "swift" then GoResult.ok "Swift"
    else if p == "local" || p == "Local" then GoResult.ok "Local"
    else if p == "" then GoResult.ok ""
    else GoResult.err ("unsupported storage provider: " ++ p)

/-- Image resolution for the etcd image (lines 873-881): the spec image wins; otherwise the
catalog entry; otherwise an error. -/
def resolveEtcdImage (images : List (String × String)) (specImage : Option String) : GoResult String :=
  match specImage with
  | some img => GoResult.ok img
  | none =>
    match lookupStr images commonEtcd with
    | some v => GoResult.ok v
    | none =>
      GoResult.err ("either etcd resource or image vector should have " ++ commonEtcd ++ " image")

/-- Image resolution for the backup-restore image (lines 936-944). -/
def resolveBackupImage (images : List (String × String)) (specImage : Option String) : GoResult String :=
  match specImage with
  | some img => GoResult.ok img
  | none =>
    match lookupStr images commonBackupRestore with
    | some v => GoResult.ok v
    | none =>
      GoResult.err ("either etcd resource or image vector should have " ++ commonBackupRestore ++ " image")

/-- The statefulsetReplicas computation (lines 844-847): 1 iff the declared replicas count
is nonzero, 0 otherwise. -/
def statefulsetReplicasVal (etcd : Etcd) : Int :=
  if etcd.spec.replicas != 0 then 1 else 0

/-- The etcd quota with its 8 GiB default (lines 883-886). -/
def quotaValue (etcd : Etcd) : Int :=
  match etcd.spec.etcd.quota with
  | some q => q
  | none => 8 * 1024 * 1024 * 1024

/-- The delta-snapshot memory limit with its 100 MiB default (lines 888-891). -/
def deltaSnapshotMemoryLimitValue (etcd : Etcd) : Int :=
  match etcd.spec.backup.deltaSnapshotMemoryLimit with
  | some d => d
  | none => 100 * 1024 * 1024

/-- The volume claim template name with its fallback to the parent name (lines 946-949). -/
def vctNameValue (etcd : Etcd) : String :=
  match etcd.spec.volumeClaimTemplate with
  | some v => if v.length != 0 then v else etcd.meta.name
  | none => etcd.meta.name

/-- The auto-compaction mode with its periodic default (lines 951-958). -/
def autoCompactionModeValue (etcd : Etcd) : String :=
  match etcd.spec.common.autoCompactionMode with
  | some m => m
  | none => periodicMode

/-- The auto-compaction retention with its 30m default (lines 951-962). -/
def autoCompactionRetentionValue (etcd : Etcd) : String :=
  match etcd.spec.common.autoCompactionRetention with
  | some rr => rr
  | none => defaultAutoCompactionRetention

/-- The values literal of lines 849-996 without the store sub-map, given the two resolved
images; reached only after the UID slice succeeded. -/
def baseValues (etcd : Etcd) (etcdImage backupImage : String) : ChartValues :=
  { name := etcd.meta.name
    uid := etcd.meta.uid
    replicas := etcd.spec.replicas
    statefulsetReplicas := statefulsetReplicasVal etcd
    serviceName := etcd.meta.name ++ "-client"
    configMapName := "etcd-bootstrap-" ++ etcd.meta.uid.take 6
    volumeClaimTemplateName := vctNameValue etcd
    etcd := { defragmentationSchedule := etcd.spec.etcd.defragmentationSchedule
              enableTLS := etcd.spec.etcd.tls.isSome
              image := etcdImage }
    backup := { etcdQuotaBytes := quotaValue etcd
                etcdConnectionTimeout := "5m"
                snapstoreTempDir := "/var/etcd/data/temp"
                deltaSnapshotMemoryLimit := deltaSnapshotMemoryLimitValue etcd
                image := backupImage
                port := etcd.spec.backup.port }
    sharedConfig := { autoCompactionMode := autoCompactionModeValue etcd
                      autoCompactionRetention := autoCompactionRetentionValue etcd }
    tlsServerSecret := etcd.spec.etcd.tls.map TlsRefs.serverTLSSecretName
    tlsClientSecret := etcd.spec.etcd.tls.map TlsRefs.clientTLSSecretName
    tlsCASecret := etcd.spec.etcd.tls.map TlsRefs.tlsCASecretName
    store := none }

/-- The store sub-map (lines 1003-1012) given the normalised provider tag. -/
def storeValuesOf (st : StoreSpec) (sp : String) : StoreValues :=
  { storePrefixV := st.prefixStr
    storageProvider := sp
    storageContainer := st.container
    storeSecret := st.secretRefName }

/-- The catalog restriction of lines 836-842: images are looked up only when either image
is absent from the spec. -/
def imagesOf (catalog : List (String × String)) (etcd : Etcd) : List (String × String) :=
  if etcd.spec.etcd.image.isNone || etcd.spec.backup.image.isNone then
    findImages catalog [commonEtcd, commonBackupRestore]
  else []

/-- getMapFromEtcd (lines 825-1018): projects the parent spec, the defaults and the image
catalog into the values map. The unguarded six-byte UID slice at line 976 is modelled by an
explicit length test producing a panic, and the store normalisation happens after the
values literal, exactly as in the source. -/
def getMapFromEtcd (catalog : List (String × String)) (etcd : Etcd) : GoResult ChartValues :=
  let images : List (String × String) := imagesOf catalog etcd
  match resolveEtcdImage images etcd.spec.etcd.image with
  | GoResult.err m => GoResult.err m
  | GoResult.panics m => GoResult.panics m
  | GoResult.ok etcdImage =>
    match resolveBackupImage images etcd.spec.backup.image with
    | GoResult.err m => GoResult.err m
    | GoResult.panics m => GoResult.panics m
    | GoResult.ok backupImage =>
      if etcd.meta.uid.length < 6 then
        GoResult.panics "slice bounds out of range"
      else
        match etcd.spec.backup.store with
        | none => GoResult.ok (baseValues etcd etcdImage backupImage)
        | some st =>
          match storageProviderFromInfraProvider st.provider with
          | GoResult.err m => GoResult.err m
          | GoResult.panics m => GoResult.panics m
          | GoResult.ok sp =>
            GoResult.ok
              { baseValues etcd etcdImage backupImage with store := some (storeValuesOf st sp) }

/-- Characterisation of every successful getMapFromEtcd result: the fields the defaults
claims inspect are determined by the spec fields as the source computes them. -/
theorem getMapFromEtcd_ok_fields (catalog : List (String × String)) (etcd : Etcd)
    (v : ChartValues) (h : getMapFromEtcd catalog etcd = GoResult.ok v) :
    v.statefulsetReplicas = statefulsetReplicasVal etcd ∧
    v.backup.etcdQuotaBytes = quotaValue etcd ∧
    v.backup.deltaSnapshotMemoryLimit = deltaSnapshotMemoryLimitValue etcd ∧
    v.backup.etcdConnectionTimeout = "5m" ∧
    v.backup.snapstoreTempDir = "/var/etcd/data/temp" ∧
    v.sharedConfig.autoCompactionMode = autoCompactionModeValue etcd ∧
    v.sharedConfig.autoCompactionRetention = autoCompactionRetentionValue etcd := by
  unfold getMapFromEtcd at h
  rcases hei : resolveEtcdImage (imagesOf catalog etcd) etcd.spec.etcd.image with ei | m | m
  rotate_left
  · simp only [hei] at h
    exact GoResult.noConfusion h
  · simp only [hei] at h
    exact GoResult.noConfusion h
  simp only [hei] at h
  rcases hbi : resolveBackupImage (imagesOf catalog etcd) etcd.spec.backup.image with bi | m | m
  rotate_left
  · simp only [hbi] at h
    exact GoResult.noConfusion h
  · simp only [hbi] at h
    exact GoResult.noConfusion h
  simp only [hbi] at h
  by_cases hu : etcd.meta.uid.length < 6
  · rw [if_pos hu] at h
    exact GoResult.noConfusion h
  · rw [if_neg hu] at h
    rcases hst : etcd.spec.backup.store with _ | st <;> simp only [hst] at h
    · cases h
      exact ⟨rfl, rfl, rfl, rfl, rfl, rfl, rfl⟩
    · rcases hsp : storageProviderFromInfraProvider st.provider with sp | m | m
      rotate_left
      · simp only [hsp] at h
        exact GoResult.noConfusion h
      · simp only [hsp] at h
        exact GoResult.noConfusion h
      simp only [hsp] at h
      cases h
      exact ⟨rfl, rfl, rfl, rfl, rfl, rfl, rfl⟩

/-- Claim C7: the statefulsetReplicas value placed in the rendered values map is 1 when the
declared replicas count is nonzero and 0 otherwise, so any declared count greater than one
is collapsed to 1. -/
theorem getMapFromEtcd_statefulsetReplicas (catalog : List (String × String)) (etcd : Etcd)
    (v : ChartValues) (h : getMapFromEtcd catalog etcd = GoResult.ok v) :
    (etcd.spec.replicas ≠ 0 → v.statefulsetReplicas = 1) ∧
    (etcd.spec.replicas = 0 → v.statefulsetReplicas = 0) := by
  have hm := (getMapFromEtcd_ok_fields catalog etcd v h).1
  constructor
  · intro hne
    rw [hm]
    simp [statefulsetReplicasVal, hne]
  · intro he
    rw [hm]
    simp [statefulsetReplicasVal, he]

/-- A sample parent with three declared replicas and every defaulted field absent. -/
def sampleEtcd : Etcd :=
  { meta := { name := "foo", ns := "shoot", uid := "123456-abc", labels := [],
              annots := none, ownerRefs := [] },
    generation := 1,
    spec := { selector := [], labels := [], annots := [],
              replicas := 3,
              etcd := { image := some "etcd-img", quota := none,
                        defragmentationSchedule := none, tls := none },
              backup := { image := some "backup-img", port := none,
                          deltaSnapshotMemoryLimit := none, store := none },
              common := { autoCompactionMode := none, autoCompactionRetention := none },
              volumeClaimTemplate := none },
    status := { lastError := none, observedGeneration := none, ready := none,
                readyReplicas := 0, currentReplicas := 0, updatedReplicas := 0,
                serviceName := none } }

/-- The values map getMapFromEtcd assembles for sampleEtcd. -/
def sampleValues : ChartValues :=
  { name := "foo"
    uid := "123456-abc"
    replicas := 3
    statefulsetReplicas := 1
    serviceName := "foo-client"
    configMapName := "etcd-bootstrap-123456"
    volumeClaimTemplateName := "foo"
    etcd := { defragmentationSchedule := none, enableTLS := false, image := "etcd-img" }
    backup := { etcdQuotaBytes := 8589934592
                etcdConnectionTimeout := "5m"
                snapstoreTempDir := "/var/etcd/data/temp"
                deltaSnapshotMemoryLimit := 104857600
                image := "backup-img"
                port := none }
    sharedConfig := { autoCompactionMode := "periodic", autoCompactionRetention := "30m" }
    tlsServerSecret := none
    tlsClientSecret := none
    tlsCASecret := none
    store := none }

/-- Witness for claim C7: the declared count 3 is collapsed to a single rendered replica. -/
theorem getMapFromEtcd_statefulsetReplicas_witness :
    sampleValues.statefulsetReplicas = 1 :=
  (getMapFromEtcd_statefulsetReplicas [] sampleEtcd sampleValues (by decide)).1 (by decide)

/-- Claim C8: each default is applied exactly when the corresponding spec field is absent,
and the spec-provided value is used unchanged otherwise; the backup connection timeout and
the snapstore temp directory are the stated constants. -/
theorem getMapFromEtcd_defaults (catalog : List (String × String)) (etcd : Etcd)
    (v : ChartValues) (h : getMapFromEtcd catalog etcd = GoResult.ok v) :
    (etcd.spec.etcd.quota = none → v.backup.etcdQuotaBytes = 8 * 1024 * 1024 * 1024) ∧
    (∀ q, etcd.spec.etcd.quota = some q → v.backup.etcdQuotaBytes = q) ∧
    (etcd.spec.backup.deltaSnapshotMemoryLimit = none →
      v.backup.deltaSnapshotMemoryLimit = 100 * 1024 * 1024) ∧
    (∀ d, etcd.spec.backup.deltaSnapshotMemoryLimit = some d →
      v.backup.deltaSnapshotMemoryLimit = d) ∧
    v.backup.etcdConnectionTimeout = "5m" ∧
    v.backup.snapstoreTempDir = "/var/etcd/data/temp" ∧
    (etcd.spec.common.autoCompactionMode = none →
      v.sharedConfig.autoCompactionMode = "periodic") ∧
    (∀ m, etcd.spec.common.autoCompactionMode = some m →
      v.sharedConfig.autoCompactionMode = m) ∧
    (etcd.spec.common.autoCompactionRetention = none →
      v.sharedConfig.autoCompactionRetention = "30m") ∧
    (∀ rr, etcd.spec.common.autoCompactionRetention = some rr →
      v.sharedConfig.autoCompactionRetention = rr) := by
  obtain ⟨h1, h2, h3, h4, h5, h6, h7⟩ := getMapFromEtcd_ok_fields catalog etcd v h
  refine ⟨fun hq => ?_, fun q hq => ?_, fun hd => ?_, fun d hd => ?_, h4, h5,
          fun hm => ?_, fun m hm => ?_, fun hr => ?_, fun rr hr => ?_⟩
  · rw [h2]; simp [quotaValue, hq]
  · rw [h2]; simp [quotaValue, hq]
  · rw [h3]; simp [deltaSnapshotMemoryLimitValue, hd]
  · rw [h3]; simp [deltaSnapshotMemoryLimitValue, hd]
  · rw [h6]; simp [autoCompactionModeValue, hm, periodicMode]
  · rw [h6]; simp [autoCompactionModeValue, hm]
  · rw [h7]; simp [autoCompactionRetentionValue, hr, defaultAutoCompactionRetention]
  · rw [h7]; simp [autoCompactionRetentionValue, hr]

/-- Witness for claim C8: with every defaulted field absent, the assembled map carries the
stated default bytes and strings. -/
theorem getMapFromEtcd_defaults_witness :
    sampleValues.backup.etcdQuotaBytes = 8 * 1024 * 1024 * 1024 ∧
    sampleValues.backup.deltaSnapshotMemoryLimit = 100 * 1024 * 1024 ∧
    sampleValues.backup.etcdConnectionTimeout = "5m" ∧
    sampleValues.backup.snapstoreTempDir = "/var/etcd/data/temp" ∧
    sampleValues.sharedConfig.autoCompactionMode = "periodic" ∧
    sampleValues.sharedConfig.autoCompactionRetention = "30m" :=
  ⟨(getMapFromEtcd_defaults [] sampleEtcd sampleValues (by decide)).1 rfl,
   (getMapFromEtcd_defaults [] sampleEtcd sampleValues (by decide)).2.2.1 rfl,
   (getMapFromEtcd_defaults [] sampleEtcd sampleValues (by decide)).2.2.2.2.1,
   (getMapFromEtcd_defaults [] sampleEtcd sampleValues (by decide)).2.2.2.2.2.1,
   (getMapFromEtcd_defaults [] sampleEtcd sampleValues (by decide)).2.2.2.2.2.2.1 rfl,
   (getMapFromEtcd_defaults [] sampleEtcd sampleValues (by decide)).2.2.2.2.2.2.2.2.1 rfl⟩

/-- A parent with a two-character UID whose etcd image is absent from both spec and catalog. -/
def c10Etcd : Etcd :=
  { meta := { name := "bar", ns := "shoot", uid := "ab", labels := [],
              annots := none, ownerRefs := [] },
    generation := 1,
    spec := { selector := [], labels := [], annots := [],
              replicas := 1,
              etcd := { image := none, quota := none,
                        defragmentationSchedule := none, tls := none },
              backup := { image := some "backup-img", port := none,
                          deltaSnapshotMemoryLimit := none, store := none },
              common := { autoCompactionMode := none, autoCompactionRetention := none },
              volumeClaimTemplate := none },
    status := { lastError := none, observedGeneration := none, ready := none,
                readyReplicas := 0, currentReplicas := 0, updatedReplicas := 0,
                serviceName := none } }

/-- Counterexample to claim C10 as stated: this parent UID is shorter than six characters,
yet value assembly returns an image-resolution error instead of panicking, because the
image check at lines 873-877 runs before the values literal is built. -/
theorem getMapFromEtcd_short_uid_error_counterexample :
    c10Etcd.meta.uid.length < 6 ∧
    getMapFromEtcd [] c10Etcd =
      GoResult.err "either etcd resource or image vector should have etcd image" := by
  decide

/-- The alias table returns a tag or an error, never a panic. -/
theorem storageProviderFromInfraProvider_not_panics (p : Option String) (msg : String) :
    storageProviderFromInfraProvider p ≠ GoResult.panics msg := by
  unfold storageProviderFromInfraProvider
  cases p with
  | none => simp
  | some s =>
    repeat' split
    all_goals simp

/-- Claim C10 amended: the six-byte UID slice at line 976 is unguarded, so for every parent
whose two image references resolve from the spec, a UID shorter than six characters makes
value assembly panic rather than return an error, and with a UID of length at least six the
assembly never panics. -/
theorem getMapFromEtcd_uid_slice (catalog : List (String × String)) (etcd : Etcd)
    (hei : etcd.spec.etcd.image.isSome = true)
    (hbi : etcd.spec.backup.image.isSome = true) :
    (etcd.meta.uid.length < 6 →
      getMapFromEtcd catalog etcd = GoResult.panics "slice bounds out of range") ∧
    (6 ≤ etcd.meta.uid.length →
      ∀ msg, getMapFromEtcd catalog etcd ≠ GoResult.panics msg) := by
  obtain ⟨ei, hei2⟩ := Option.isSome_iff_exists.mp hei
  obtain ⟨bi, hbi2⟩ := Option.isSome_iff_exists.mp hbi
  have hre : resolveEtcdImage (imagesOf catalog etcd) etcd.spec.etcd.image = GoResult.ok ei := by
    rw [hei2]
    rfl
  have hrb : resolveBackupImage (imagesOf catalog etcd) etcd.spec.backup.image = GoResult.ok bi := by
    rw [hbi2]
    rfl
  constructor
  · intro hlen
    unfold getMapFromEtcd
    simp only [hre, hrb]
    rw [if_pos hlen]
  · intro hlen msg
    unfold getMapFromEtcd
    simp only [hre, hrb]
    rw [if_neg (by omega)]
    rcases hst : etcd.spec.backup.store with _ | st <;> simp only [hst]
    · simp
    · rcases hsp : storageProviderFromInfraProvider st.provider with sp | m | m <;>
          simp only [hsp]
      · simp
      · simp
      · exact absurd hsp (storageProviderFromInfraProvider_not_panics _ _)

/-- A parent with a two-character UID and both images set in the spec. -/
def c10PanicsEtcd : Etcd :=
  { meta := { name := "baz", ns := "shoot", uid := "ab", labels := [],
              annots := none, ownerRefs := [] },
    generation := 1,
    spec := { selector := [], labels := [], annots := [],
              replicas := 1,
              etcd := { image := some "etcd-img", quota := none,
                        defragmentationSchedule := none, tls := none },
              backup := { image := some "backup-img", port := none,
                          deltaSnapshotMemoryLimit := none, store := none },
              common := { autoCompactionMode := none, autoCompactionRetention := none },
              volumeClaimTemplate := none },
    status := { lastError := none, observedGeneration := none, ready := none,
                readyReplicas := 0, currentReplicas := 0, updatedReplicas := 0,
                serviceName := none } }

/-- Witness for the amended claim C10: the short-UID parent with resolvable images makes
value assembly panic. -/
theorem getMapFromEtcd_uid_slice_witness :
    getMapFromEtcd [] c10PanicsEtcd = GoResult.panics "slice bounds out of range" :=
  (getMapFromEtcd_uid_slice [] c10PanicsEtcd (by decide) (by decide)).1 (by decide)

/-! ## Chart rendering during one reconcile (claim C4) -/

/-- getChartPathForStatefulSet (lines 134-136). -/
def getChartPathForStatefulSet : String := "etcd/templates/etcd-statefulset.yaml"

/-- getChartPathForConfigMap (lines 138-140). -/
def getChartPathForConfigMap : String := "etcd/templates/etcd-configmap.yaml"

/-- getChartPathForService (lines 142-144). -/
def getChartPathForService : String := "etcd/templates/etcd-service.yaml"

/-- A rendered chart is its files map: path to text. A renderer turns a values map into a
rendered chart; decoding a child object from a file is abstracted to returning the text.
Each embedded function below returns its result together with the number of
chartApplier.Render calls it performed. -/
def getServiceFromEtcd (renderedChart : List (String × String)) : GoResult String × Nat :=
  (match lookupStr renderedChart getChartPathForService with
   | none => GoResult.err "missing service template file in the charts"
   | some content => GoResult.ok content,
   0)

/-- getConfigMapFromEtcd (lines 542-558): decodes from the shared rendered chart; renders
zero times. -/
def getConfigMapFromEtcd (renderedChart : List (String × String)) : GoResult String × Nat :=
  (match lookupStr renderedChart getChartPathForConfigMap with
   | none => GoResult.err "missing configmap template file in the charts"
   | some content => GoResult.ok content,
   0)

/-- getStatefulSetFromEtcd (lines 741-759): renders the chart from the values map at line
746 and decodes the statefulset from the fresh bundle; one render per call. The source
reuses the configmap wording in its error message. -/
def getStatefulSetFromEtcd (render : ChartValues → List (String × String))
    (values : ChartValues) : GoResult String × Nat :=
  (match lookupStr (render values) getChartPathForStatefulSet with
   | none => GoResult.err "missing configmap template file in the charts"
   | some content => GoResult.ok content,
   1)

/-- reconcileServices (lines 307-386) restricted to its render behaviour: both the claimed
branch (through syncServiceSpec, line 389) and the create branch (line 363) decode from the
shared rendered chart via getServiceFromEtcd. -/
def reconcileServicesR (renderedChart : List (String × String)) (claimed : List ChildRef) :
    GoResult String × Nat :=
  if claimed.length > 0 then
    getServiceFromEtcd renderedChart
  else
    getServiceFromEtcd renderedChart

/-- reconcileConfigMaps (lines 434-512) restricted to its render behaviour. -/
def reconcileConfigMapsR (renderedChart : List (String × String)) (claimed : List ChildRef) :
    GoResult String × Nat :=
  if claimed.length > 0 then
    getConfigMapFromEtcd renderedChart
  else
    getConfigMapFromEtcd renderedChart

/-- reconcileStatefulSet (lines 560-665) restricted to its render behaviour: both the
claimed branch (through syncStatefulSetSpec, line 676) and the create branch (line 647)
call getStatefulSetFromEtcd, which renders. -/
def reconcileStatefulSetR (render : ChartValues → List (String × String))
    (values : ChartValues) (claimed : List ChildRef) : GoResult String × Nat :=
  if claimed.length > 0 then
    getStatefulSetFromEtcd render values
  else
    getStatefulSetFromEtcd render values

/-- reconcileEtcd (lines 761-795) restricted to its render behaviour: it renders once at
line 769, hands that bundle to the service and configmap syncs, folds the synced names
into the values map, and runs the statefulset sync on the updated values. The result is
paired with the total number of Render calls of the pass. -/
def reconcileEtcdRenders (render : ChartValues → List (String × String))
    (values : ChartValues) (svcClaimed cmClaimed stsClaimed : List ChildRef) :
    GoResult Unit × Nat :=
  let renderedChart := render values
  match reconcileServicesR renderedChart svcClaimed with
  | (GoResult.err m, nSvc) => (GoResult.err m, 1 + nSvc)
  | (GoResult.panics m, nSvc) => (GoResult.panics m, 1 + nSvc)
  | (GoResult.ok svcName, nSvc) =>
    match reconcileConfigMapsR renderedChart cmClaimed with
    | (GoResult.err m, nCm) => (GoResult.err m, 1 + nSvc + nCm)
    | (GoResult.panics m, nCm) => (GoResult.panics m, 1 + nSvc + nCm)
    | (GoResult.ok cmName, nCm) =>
      match reconcileStatefulSetR render
          { values with serviceName := svcName, configMapName := cmName } stsClaimed with
      | (GoResult.err m, nSts) => (GoResult.err m, 1 + nSvc + nCm + nSts)
      | (GoResult.panics m, nSts) => (GoResult.panics m, 1 + nSvc + nCm + nSts)
      | (GoResult.ok _, nSts) => (GoResult.ok (), 1 + nSvc + nCm + nSts)

/-- A renderer producing all three template files. -/
def c4Render : ChartValues → List (String × String) := fun _ =>
  [(getChartPathForService, "service-manifest"),
   (getChartPathForConfigMap, "configmap-manifest"),
   (getChartPathForStatefulSet, "statefulset-manifest")]

/-- Counterexample to claim C4 as stated: a fully successful reconcile pass performs two
chart renders, not one, because the workload sync renders again from the values map. -/
theorem reconcileEtcd_renders_twice_counterexample :
    (reconcileEtcdRenders c4Render sampleValues [] [] []).1 = GoResult.ok () ∧
    (reconcileEtcdRenders c4Render sampleValues [] [] []).2 = 2 ∧
    (reconcileEtcdRenders c4Render sampleValues [] [] []).2 ≠ 1 := by
  decide

/-- The service sync never renders. -/
theorem reconcileServicesR_renders_zero (chart : List (String × String))
    (claimed : List ChildRef) : (reconcileServicesR chart claimed).2 = 0 := by
  unfold reconcileServicesR
  split <;> rfl

/-- The configmap sync never renders. -/
theorem reconcileConfigMapsR_renders_zero (chart : List (String × String))
    (claimed : List ChildRef) : (reconcileConfigMapsR chart claimed).2 = 0 := by
  unfold reconcileConfigMapsR
  split <;> rfl

/-- The statefulset sync renders exactly once per invocation. -/
theorem reconcileStatefulSetR_renders_one (render : ChartValues → List (String × String))
    (values : ChartValues) (claimed : List ChildRef) :
    (reconcileStatefulSetR render values claimed).2 = 1 := by
  unfold reconcileStatefulSetR
  split <;> rfl

/-- Claim C4 amended: within one reconcile pass the chart is rendered once by reconcileEtcd
and that bundle is shared by the endpoint and config-blob syncs, which render zero times;
the workload sync does not use the shared bundle and performs one further render of its
own, so a pass that completes successfully renders the chart exactly twice. -/
theorem reconcileEtcd_render_sharing (render : ChartValues → List (String × String))
    (values : ChartValues) (svcClaimed cmClaimed stsClaimed : List ChildRef)
    (h : (reconcileEtcdRenders render values svcClaimed cmClaimed stsClaimed).1 =
      GoResult.ok ()) :
    (reconcileEtcdRenders render values svcClaimed cmClaimed stsClaimed).2 = 2 ∧
    (reconcileServicesR (render values) svcClaimed).2 = 0 ∧
    (reconcileConfigMapsR (render values) cmClaimed).2 = 0 := by
  refine ⟨?_, reconcileServicesR_renders_zero _ _, reconcileConfigMapsR_renders_zero _ _⟩
  unfold reconcileEtcdRenders at h ⊢
  rcases hs : reconcileServicesR (render values) svcClaimed with ⟨svcRes, nSvc⟩
  have hs0 : nSvc = 0 := by
    have := reconcileServicesR_renders_zero (render values) svcClaimed
    rw [hs] at this
    exact this
  simp only [hs] at h ⊢
  rcases svcRes with svcName | m | m
  rotate_left
  · exact GoResult.noConfusion h
  · exact GoResult.noConfusion h
  rcases hc : reconcileConfigMapsR (render values) cmClaimed with ⟨cmRes, nCm⟩
  have hc0 : nCm = 0 := by
    have := reconcileConfigMapsR_renders_zero (render values) cmClaimed
    rw [hc] at this
    exact this
  simp only [hc] at h ⊢
  rcases cmRes with cmName | m | m
  rotate_left
  · exact GoResult.noConfusion h
  · exact GoResult.noConfusion h
  rcases hsts : reconcileStatefulSetR render
      { values with serviceName := svcName, configMapName := cmName } stsClaimed with
    ⟨stsRes, nSts⟩
  have hsts1 : nSts = 1 := by
    have := reconcileStatefulSetR_renders_one render
      { values with serviceName := svcName, configMapName := cmName } stsClaimed
    rw [hsts] at this
    exact this
  simp only [hsts] at h ⊢
  rcases stsRes with r | m | m
  rotate_left
  · exact GoResult.noConfusion h
  · exact GoResult.noConfusion h
  subst hs0
  subst hc0
  subst hsts1
  rfl

/-- Witness for the amended claim C4: the successful pass with the concrete renderer
performs exactly two renders, and its child syncs render zero times apiece. -/
theorem reconcileEtcd_render_sharing_witness :
    (reconcileEtcdRenders c4Render sampleValues [⟨"shoot", "svc"⟩] [⟨"shoot", "cm"⟩]
      [⟨"shoot", "sts"⟩]).2 = 2 ∧
    (reconcileServicesR (c4Render sampleValues) [⟨"shoot", "svc"⟩]).2 = 0 ∧
    (reconcileConfigMapsR (c4Render sampleValues) [⟨"shoot", "cm"⟩]).2 = 0 :=
  reconcileEtcd_render_sharing c4Render sampleValues [⟨"shoot", "svc"⟩] [⟨"shoot", "cm"⟩]
    [⟨"shoot", "sts"⟩] (by decide)

/-! ## Dependent-secret finalizers and the RECONCILE path (claim C5) -/

/-- A secret, reduced to the fields the controllers touch. -/
structure Secret where
  name : String
  ns : String
  finalizers : List String
  deriving Repr, DecidableEq

/-- Client Get of a secret by namespace and name. -/
def getSecret (cluster : List Secret) (ns name : String) : Option Secret :=
  cluster.find? (fun s => s.ns == ns && s.name == name)

/-- The referenced secrets collected at lines 1022-1034, in source order: the three TLS
secrets when TLS is set (client, server, CA), then the store secret when set. -/
def dependantSecretRefs (etcd : Etcd) : List String :=
  (match etcd.spec.etcd.tls with
   | some t => [t.clientTLSSecretName, t.serverTLSSecretName, t.tlsCASecretName]
   | none => []) ++
  (match etcd.spec.backup.store with
   | some st =>
     match st.secretRefName with
     | some n => [n]
     | none => []
   | none => [])

/-- Replace a secret in the cluster by name within the parent namespace. -/
def putSecret (cluster : List Secret) (s : Secret) : List Secret :=
  cluster.map (fun t => if t.ns == s.ns && t.name == s.name then s else t)

/-- The loop body of addFinalizersToDependantSecrets (lines 1036-1052): a missing secret is
a hard error; otherwise the finalizer is inserted where absent. -/
def addFinalizersLoop (ns : String) (refs : List String) (cluster : List Secret) :
    GoResult (List Secret) :=
  match refs with
  | [] => GoResult.ok cluster
  | r :: rest =>
    match getSecret cluster ns r with
    | none => GoResult.err ("secrets " ++ r ++ " not found")
    | some s =>
      if s.finalizers.contains finalizerName then
        addFinalizersLoop ns rest cluster
      else
        addFinalizersLoop ns rest
          (putSecret cluster { s with finalizers := s.finalizers ++ [finalizerName] })

/-- addFinalizersToDependantSecrets (lines 1020-1054). -/
def addFinalizersToDependantSecrets (etcd : Etcd) (cluster : List Secret) :
    GoResult (List Secret) :=
  addFinalizersLoop etcd.meta.ns (dependantSecretRefs etcd) cluster

/-- The externally visible steps of the RECONCILE path. -/
inductive ReconcileStep where
  | addEtcdFinalizer
  | addSecretFinalizers
  | writeErrorStatus
  | writeNotReadyStatus
  | syncChildren
  | writeFinalStatus
  deriving Repr, DecidableEq

/-- Outcomes of the individual API interactions the RECONCILE path performs. -/
structure ReconcileEnv where
  hasFinalizer : Bool
  finalizerUpdateSucceeds : Bool
  secretFinalizersSucceed : Bool
  errorStatusWriteSucceeds : Bool
  notReadyWriteSucceeds : Bool
  notReadyWriteNotFound : Bool
  reconcileEtcdSucceeds : Bool
  finalStatusWriteSucceeds : Bool
  deriving Repr, DecidableEq

/-- Result of one RECONCILE pass: the steps attempted in execution order (writeErrorStatus
is listed only when the error-status write succeeded) and whether the request is requeued. -/
structure ReconcileResult where
  performed : List ReconcileStep
  requeue : Bool
  deriving Repr, DecidableEq

/-- The RECONCILE path control flow of reconcile (lines 202-260). When the parent finalizer
add fails, the pass requeues whether or not the error-status write succeeds. When
addFinalizersToDependantSecrets fails (line 222), the pass returns only when the
error-status write also fails; when the error-status write succeeds, control falls through
(there is no return at line 228) and the pass continues with the not-ready write and the
child sync. -/
def reconcileFlow (env : ReconcileEnv) : ReconcileResult :=
  if !env.hasFinalizer && !env.finalizerUpdateSucceeds then
    { performed := [ReconcileStep.addEtcdFinalizer] ++
        (if env.errorStatusWriteSucceeds then [ReconcileStep.writeErrorStatus] else []),
      requeue := true }
  else
    let s1 : List ReconcileStep :=
      if !env.hasFinalizer then [ReconcileStep.addEtcdFinalizer] else []
    if !env.secretFinalizersSucceed && !env.errorStatusWriteSucceeds then
      { performed := s1 ++ [ReconcileStep.addSecretFinalizers], requeue := true }
    else
      let s2 : List ReconcileStep := s1 ++ [ReconcileStep.addSecretFinalizers] ++
        (if !env.secretFinalizersSucceed then [ReconcileStep.writeErrorStatus] else [])
      if !env.notReadyWriteSucceeds then
        { performed := s2 ++ [ReconcileStep.writeNotReadyStatus],
          requeue := !env.notReadyWriteNotFound }
      else
        let s3 : List ReconcileStep := s2 ++ [ReconcileStep.writeNotReadyStatus]
        if !env.reconcileEtcdSucceeds then
          { performed := s3 ++ [ReconcileStep.syncChildren] ++
              (if env.errorStatusWriteSucceeds then [ReconcileStep.writeErrorStatus] else []),
            requeue := true }
        else
          let s4 : List ReconcileStep := s3 ++ [ReconcileStep.syncChildren]
          if !env.finalStatusWriteSucceeds then
            { performed := s4 ++ [ReconcileStep.writeFinalStatus], requeue := true }
          else
            { performed := s4 ++ [ReconcileStep.writeFinalStatus], requeue := false }

/-- A parent referencing three TLS secrets, none of which exists in the cluster. -/
def c5Etcd : Etcd :=
  { meta := { name := "foo", ns := "shoot", uid := "123456-abc", labels := [],
              annots := none, ownerRefs := [] },
    generation := 1,
    spec := { selector := [], labels := [], annots := [],
              replicas := 1,
              etcd := { image := some "etcd-img", quota := none,
                        defragmentationSchedule := none,
                        tls := some { serverTLSSecretName := "etcd-server-tls",
                                      clientTLSSecretName := "etcd-client-tls",
                                      tlsCASecretName := "ca-etcd" } },
              backup := { image := some "backup-img", port := none,
                          deltaSnapshotMemoryLimit := none, store := none },
              common := { autoCompactionMode := none, autoCompactionRetention := none },
              volumeClaimTemplate := none },
    status := { lastError := none, observedGeneration := none, ready := none,
                readyReplicas := 0, currentReplicas := 0, updatedReplicas := 0,
                serviceName := none } }

/-- The environment of the failing pass: the secret step fails, every other API call
succeeds. -/
def c5Env : ReconcileEnv :=
  { hasFinalizer := true, finalizerUpdateSucceeds := true,
    secretFinalizersSucceed := false, errorStatusWriteSucceeds := true,
    notReadyWriteSucceeds := true, notReadyWriteNotFound := false,
    reconcileEtcdSucceeds := true, finalStatusWriteSucceeds := true }

/-- Claim C5, failing on the code: with a referenced secret missing,
addFinalizersToDependantSecrets returns a hard error and the error is recorded on the
status, but because the return at line 228 is missing the same pass still performs the
not-ready write, the child sync and the final status write. -/
theorem reconcile_missing_secret_still_syncs :
    (addFinalizersToDependantSecrets c5Etcd []).isErr = true ∧
    ReconcileStep.writeErrorStatus ∈ (reconcileFlow c5Env).performed ∧
    ReconcileStep.syncChildren ∈ (reconcileFlow c5Env).performed ∧
    (reconcileFlow c5Env).requeue = false := by
  decide

/-! ## Status writes and the operation marker (claim C6) -/

/-- The operation annotation removal helper of lines 1216-1222 (renamed here): when the
well-known key is present it is deleted and the object updated; otherwise nothing
happens. -/
def removeOperationMarker (etcd : Etcd) : Etcd :=
  match etcd.meta.annots with
  | none => etcd
  | some m =>
    if (lookupStr m gardenerOperation).isSome then
      { etcd with meta := { etcd.meta with
          annots := some (m.filter (fun p => !(p.1 == gardenerOperation))) } }
    else etcd

/-- The operation-marker entry of the parent, if any. -/
def lookupOperation (etcd : Etcd) : Option String :=
  match etcd.meta.annots with
  | none => none
  | some m => lookupStr m gardenerOperation

/-- Modelled from the spec: CheckStatefulSet (the HealthPredicate of spec section 4.2,
defined in a file not under src): the workload is ready iff its generation is observed and
the ready and updated counts match the desired count; none means ready. -/
def checkStatefulSet (_etcd : Etcd) (sts : StatefulSet) : Option String :=
  if !(sts.status.observedGeneration == sts.generation) then
    some "statefulset observed generation outdated"
  else if !(sts.status.readyReplicas == sts.replicas &&
      sts.status.updatedReplicas == sts.replicas) then
    some "statefulset replicas not ready"
  else none

/-- updateEtcdStatusAsNotReady (lines 1224-1231): on a successful status write, ready is
cleared and readyReplicas zeroed; it performs NO operation-marker removal. -/
def updateEtcdStatusAsNotReady (statusWriteSucceeds : Bool) (etcd : Etcd) : GoResult Etcd :=
  if !statusWriteSucceeds then GoResult.err "status write failed"
  else
    GoResult.ok
      { etcd with status := { etcd.status with ready := none, readyReplicas := 0 } }

/-- updateEtcdErrorStatus (lines 1121-1137): on a successful status write, lastError and
observedGeneration are set (and ready recomputed when a statefulset is known), then the
operation marker is removed. -/
def updateEtcdErrorStatus (statusWriteSucceeds : Bool) (etcd : Etcd)
    (sts : Option StatefulSet) (lastErr : String) : GoResult Etcd :=
  if !statusWriteSucceeds then GoResult.err "status write failed"
  else
    let e1 : Etcd :=
      { etcd with status := { etcd.status with
          lastError := some lastErr
          observedGeneration := some etcd.generation
          ready := match sts with
            | some s => some (checkStatefulSet etcd s).isNone
            | none => etcd.status.ready } }
    GoResult.ok (removeOperationMarker e1)

/-- updateEtcdStatus (lines 1139-1154): the final status write; on success, ready,
serviceName and observedGeneration are set, lastError cleared, then the operation marker
is removed. -/
def updateEtcdStatus (statusWriteSucceeds : Bool) (etcd : Etcd) (svcName : String)
    (sts : StatefulSet) : GoResult Etcd :=
  if !statusWriteSucceeds then GoResult.err "status write failed"
  else
    let e1 : Etcd :=
      { etcd with status := { etcd.status with
          ready := some (checkStatefulSet etcd sts).isNone
          serviceName := some svcName
          lastError := none
          observedGeneration := some etcd.generation } }
    GoResult.ok (removeOperationMarker e1)

/-- A parent carrying the operation marker. -/
def c6Etcd : Etcd :=
  { meta := { name := "foo", ns := "shoot", uid := "123456-abc", labels := [],
              annots := some [(gardenerOperation, "reconcile")], ownerRefs := [] },
    generation := 1,
    spec := { selector := [], labels := [], annots := [],
              replicas := 1,
              etcd := { image := some "etcd-img", quota := none,
                        defragmentationSchedule := none, tls := none },
              backup := { image := some "backup-img", port := none,
                          deltaSnapshotMemoryLimit := none, store := none },
              common := { autoCompactionMode := none, autoCompactionRetention := none },
              volumeClaimTemplate := none },
    status := { lastError := none, observedGeneration := none, ready := none,
                readyReplicas := 0, currentReplicas := 0, updatedReplicas := 0,
                serviceName := none } }

/-- The parent after the successful transitional not-ready write. -/
def c6EtcdAfter : Etcd :=
  { c6Etcd with status := { c6Etcd.status with ready := none, readyReplicas := 0 } }

/-- Counterexample to claim C6 as stated: the transitional not-ready write succeeds on a
parent carrying the operation marker, and the marker is still present afterwards, because
updateEtcdStatusAsNotReady never calls the operation annotation removal helper. -/
theorem updateEtcdStatusAsNotReady_keeps_operation_marker :
    lookupOperation c6Etcd = some "reconcile" ∧
    updateEtcdStatusAsNotReady true c6Etcd = GoResult.ok c6EtcdAfter ∧
    lookupOperation c6EtcdAfter = some "reconcile" := by
  decide

/-- find? after filtering a key out never finds that key. -/
theorem find?_filter_out_key (m : List (String × String)) (k : String) :
    (m.filter (fun p => !(p.1 == k))).find? (fun p => p.1 == k) = none := by
  induction m with
  | nil => rfl
  | cons a t ih =>
    by_cases h : a.1 == k
    · simp only [List.filter, h, Bool.not_true]
      exact ih
    · have h2 : (a.1 == k) = false := by
        simp only [Bool.not_eq_true] at h
        exact h
      simp only [List.filter, h2, Bool.not_false, List.find?, ih]

/-- Looking a key up after filtering it out yields nothing. -/
theorem lookupStr_filter_out (m : List (String × String)) (k : String) :
    lookupStr (m.filter (fun p => !(p.1 == k))) k = none := by
  unfold lookupStr
  rw [find?_filter_out_key]
  rfl

/-- removeOperationMarker leaves no operation marker behind. -/
theorem lookupOperation_removeOperationMarker (etcd : Etcd) :
    lookupOperation (removeOperationMarker etcd) = none := by
  unfold removeOperationMarker
  rcases hm : etcd.meta.annots with _ | m
  · simp only [hm, lookupOperation]
  · simp only [hm]
    by_cases hk : (lookupStr m gardenerOperation).isSome = true
    · rw [if_pos hk]
      simp only [lookupOperation, lookupStr_filter_out]
    · rw [if_neg hk]
      simp only [lookupOperation, hm]
      exact Option.not_isSome_iff_eq_none.mp hk

/-- Claim C6 amended: the error-status write and the final status write remove the
operation marker after every success; the transitional not-ready write does not touch it,
so the marker survives that write whenever it was present. -/
theorem statusWrites_and_operation_marker (etcd : Etcd) (stsOpt : Option StatefulSet)
    (sts : StatefulSet) (msg svcName : String) (e1 e2 e3 : Etcd)
    (h1 : updateEtcdErrorStatus true etcd stsOpt msg = GoResult.ok e1)
    (h2 : updateEtcdStatus true etcd svcName sts = GoResult.ok e2)
    (h3 : updateEtcdStatusAsNotReady true etcd = GoResult.ok e3) :
    lookupOperation e1 = none ∧ lookupOperation e2 = none ∧
    lookupOperation e3 = lookupOperation etcd := by
  refine ⟨?_, ?_, ?_⟩
  · injection h1 with h1c
    rw [← h1c]
    exact lookupOperation_removeOperationMarker _
  · injection h2 with h2c
    rw [← h2c]
    exact lookupOperation_removeOperationMarker _
  · injection h3 with h3c
    rw [← h3c]
    rfl

/-- Witness for the amended claim C6 at the concrete marked parent: both completing status
writes strip the marker, the transitional write preserves it. -/
theorem statusWrites_and_operation_marker_witness :
    lookupOperation
      ((updateEtcdErrorStatus true c6Etcd none "boom").toOptionVal.getD c6Etcd) = none ∧
    lookupOperation
      ((updateEtcdStatus true c6Etcd "foo-client" c1Sts).toOptionVal.getD c6Etcd) = none ∧
    lookupOperation
      ((updateEtcdStatusAsNotReady true c6Etcd).toOptionVal.getD c6Etcd) =
      lookupOperation c6Etcd := by
  have h := statusWrites_and_operation_marker c6Etcd none c1Sts "boom" "foo-client"
    ((updateEtcdErrorStatus true c6Etcd none "boom").toOptionVal.getD c6Etcd)
    ((updateEtcdStatus true c6Etcd "foo-client" c1Sts).toOptionVal.getD c6Etcd)
    ((updateEtcdStatusAsNotReady true c6Etcd).toOptionVal.getD c6Etcd)
    (by decide) (by decide) (by decide)
  exact h

/-! ## Custodian reconcile (claim C9) -/

/-- Outcome of a custodian pass, mirroring the returned ctrl.Result. -/
inductive CustodianOutcome where
  | doneOk
  | requeueAfterSeconds (secs : Nat)
  deriving Repr, DecidableEq

/-- The status writes a custodian pass can perform. -/
inductive CustodianWrite where
  | statusWithSts
  | statusWithNoSts
  deriving Repr, DecidableEq

/-- Result of one custodian pass: the status writes performed and the returned result. -/
structure CustodianResult where
  writes : List CustodianWrite
  outcome : CustodianOutcome
  deriving Repr, DecidableEq

/-- The tail of the custodian Reconcile (etcd_custodian_controller.go lines 106-132) after
the lastError gate: with anything other than exactly one fetched StatefulSet, the no-sts
status write runs and the pass requeues after 5 seconds; otherwise the sts-projection
status write runs and the pass completes. -/
def custodianBody (fetchedSts : List StatefulSet) : CustodianResult :=
  if fetchedSts.length != 1 then
    { writes := [CustodianWrite.statusWithNoSts],
      outcome := CustodianOutcome.requeueAfterSeconds 5 }
  else
    { writes := [CustodianWrite.statusWithSts], outcome := CustodianOutcome.doneOk }

/-- The custodian Reconcile (lines 65-133) given the fetched parent and the StatefulSets
its reference manager would fetch: when status.lastError is non-nil and non-empty the pass
stops before any write and requeues after 30 seconds (lines 81-86); otherwise it proceeds
with the projection body. The model performs writes only through the returned writes list,
mirroring that the custodian never mutates child objects. -/
def custodianReconcile (etcd : Etcd) (fetchedSts : List StatefulSet) : CustodianResult :=
  match etcd.status.lastError with
  | some msg =>
    if msg != "" then
      { writes := [], outcome := CustodianOutcome.requeueAfterSeconds 30 }
    else
      custodianBody fetchedSts
  | none => custodianBody fetchedSts

/-- Claim C9: for a parent whose lastError is non-nil and non-empty, the custodian pass
performs no status write, mutates nothing, and requeues after 30 seconds. -/
theorem custodianReconcile_skips_on_lastError (etcd : Etcd) (fetchedSts : List StatefulSet)
    (msg : String) (hmsg : etcd.status.lastError = some msg) (hne : msg ≠ "") :
    (custodianReconcile etcd fetchedSts).writes = [] ∧
    (custodianReconcile etcd fetchedSts).outcome = CustodianOutcome.requeueAfterSeconds 30 := by
  unfold custodianReconcile
  simp only [hmsg]
  have hb : (msg != "") = true := by
    simp [bne, hne]
  rw [if_pos hb]
  exact ⟨rfl, rfl⟩

/-- A parent carrying a freshly written lastError. -/
def c9Etcd : Etcd :=
  { c1Etcd with status := { c1Etcd.status with lastError := some "sync failed" } }

/-- Witness for claim C9 at the concrete errored parent with one fetched StatefulSet. -/
theorem custodianReconcile_skips_on_lastError_witness :
    (custodianReconcile c9Etcd [c1Sts]).writes = [] ∧
    (custodianReconcile c9Etcd [c1Sts]).outcome = CustodianOutcome.requeueAfterSeconds 30 :=
  custodianReconcile_skips_on_lastError c9Etcd [c1Sts] "sync failed" (by decide) (by decide)

end EtcdDruid
